import Mathlib

/-!
Shallow embedding of the run-cmake-format repository: the GitHub Actions
entrypoint (github_action_entrypoint.py) and the tool runner
(run_cmake_tool.py). External effects (filesystem queries, environment
variables, subprocess execution) are modelled as explicit parameters; each
subprocess invocation is recorded as its argument vector so that theorems can
speak about which external commands a run issues.
-/

namespace RunCmakeFormat

/-- Model of Python str.lower as used on the boolean argument literals:
lowercases every character. Stated structurally over the character list so
that concrete instances evaluate. -/
def lower (s : String) : String := String.mk (s.data.map Char.toLower)

/-- Model of Python os.path.join for the cases used by this repository: the
second component is always a fixed relative file name, so the join prepends
the directory and a slash separator unless the directory is empty or already
ends in a slash. -/
def joinPath (a b : String) : String :=
  if a = "" then b
  else if a.data.getLast? = some '/' then a ++ b
  else a ++ "/" ++ b

deriving instance DecidableEq for Except

/-- Outcome of one subprocess.run call, as the external world may answer it:
the process ran to completion with an exit code; or subprocess.run raised
subprocess.SubprocessError, the only class the except clauses in either
script catch (with check equal False and no timeout, subprocess.run does not
in practice raise this class, but the model keeps the case to embed those
handlers); or the spawn failed with an OSError such as FileNotFoundError
(e.g. the binary vanished between resolution and execution), a class no
handler in either script catches, so it propagates and aborts the run. -/
inductive SpawnOutcome where
  | exited : Int → SpawnOutcome
  | subprocessError : SpawnOutcome
  | osError : SpawnOutcome
deriving DecidableEq

/-- Whether an outcome the per-file loops handle sets the aggregate failure
flag: a non-zero exit code, or the caught subprocess.SubprocessError. The
osError case never reaches a flag update in the source (the loops abort
first); its value here is irrelevant to the loop embeddings, which match on
osError before consulting this function. -/
def SpawnOutcome.failed : SpawnOutcome → Bool
  | .exited code => code != 0
  | .subprocessError => true
  | .osError => true

/-! ## run_cmake_tool.py -/

namespace RunCmakeTool

/-- The CMakeLists file name (run_cmake_tool.py, CMAKE_LIST_FILE_NAME). -/
def CMAKE_LIST_FILE_NAME : String := "CMakeLists.txt"

namespace ExitCodes

/-- run_cmake_tool.py ExitCodes.SUCCESS. -/
def SUCCESS : Int := 0

/-- run_cmake_tool.py ExitCodes.TOOL_NOT_FOUND. -/
def TOOL_NOT_FOUND : Int := 11

/-- run_cmake_tool.py ExitCodes.INVALID_ARGUMENTS. -/
def INVALID_ARGUMENTS : Int := 12

/-- run_cmake_tool.py ExitCodes.NO_CMAKE_FILES_FOUND. -/
def NO_CMAKE_FILES_FOUND : Int := 13

end ExitCodes

mutual

/-- A directory of a filesystem tree: the file names it directly contains and
its named subdirectories. -/
inductive DirTree where
  | mk : List String → DirForest → DirTree

/-- The named subdirectories of a directory. -/
inductive DirForest where
  | nil : DirForest
  | cons : String → DirTree → DirForest → DirForest

end

/-- The file names directly contained in a directory. -/
def DirTree.files : DirTree → List String
  | .mk fs _ => fs

/-- The subdirectory forest of a directory. -/
def DirTree.subdirs : DirTree → DirForest
  | .mk _ sd => sd

mutual

/-- Model of Python os.walk over a DirTree rooted at a given path: yields, in
top-down depth-first order, one (directory path, directly contained file
names) entry per directory, joining subdirectory names onto the parent path. -/
def walk (path : String) : DirTree → List (String × List String)
  | .mk files subdirs => (path, files) :: walkForest path subdirs

/-- os.walk descent over the subdirectories of the directory at the given
path. -/
def walkForest (path : String) : DirForest → List (String × List String)
  | .nil => []
  | .cons name t rest => walk (joinPath path name) t ++ walkForest path rest

end

/-- run_cmake_tool.py get_cmake_files: recursively searches for all
CMakeLists files starting from the given directory, recording for each
directory that directly contains one the joined path root/CMakeLists.txt. -/
def get_cmake_files (start_path : String) (tree : DirTree) : List String :=
  (walk start_path tree).filterMap fun entry =>
    if CMAKE_LIST_FILE_NAME ∈ entry.2 then
      some (joinPath entry.1 CMAKE_LIST_FILE_NAME)
    else
      none

/-- The argument vector of the check-only formatter invocation for one file
(run_cmake_tool.py check_cmake_files_formatted). -/
def checkArgv (file_path : String) : List String :=
  ["cmake-format", "--check", file_path]

/-- The argument vector of the in-place-write formatter invocation for one
file (run_cmake_tool.py format_cmake_files). -/
def formatArgv (file_path : String) : List String :=
  ["cmake-format", file_path, "-o", file_path]

/-- The argument vector of the linter invocation for one file
(run_cmake_tool.py lint_cmake_files). -/
def lintArgv (log_level file_path : String) : List String :=
  ["cmake-lint", "--log-level", log_level, file_path]

/-- run_cmake_tool.py check_cmake_files_formatted: for each file, runs
cmake-format --check on it; a non-zero exit, or a subprocess.SubprocessError
caught by the except clause, sets the aggregate flag and the loop continues.
An OSError from a failed spawn is caught by no clause: it propagates and the
loop aborts. The ok result carries the issued invocation vectors and the
aggregate has_unformatted_files flag; the error result carries the
invocations attempted before and including the aborting one. The run
parameter models the external world's response to each subprocess
invocation. -/
def check_cmake_files_formatted (run : List String → SpawnOutcome) :
    List String → Except (List (List String)) (List (List String) × Bool)
  | [] => Except.ok ([], false)
  | file_path :: rest =>
    let argv := checkArgv file_path
    match run argv with
    | .osError => Except.error [argv]
    | outcome =>
      match check_cmake_files_formatted run rest with
      | .error trace => Except.error (argv :: trace)
      | .ok tail => Except.ok (argv :: tail.1, outcome.failed || tail.2)

/-- run_cmake_tool.py format_cmake_files: for each file, runs
cmake-format file -o file; a non-zero exit, or a caught
subprocess.SubprocessError, sets the aggregate flag and the loop continues;
an uncaught OSError aborts the loop as in check_cmake_files_formatted. -/
def format_cmake_files (run : List String → SpawnOutcome) :
    List String → Except (List (List String)) (List (List String) × Bool)
  | [] => Except.ok ([], false)
  | file_path :: rest =>
    let argv := formatArgv file_path
    match run argv with
    | .osError => Except.error [argv]
    | outcome =>
      match format_cmake_files run rest with
      | .error trace => Except.error (argv :: trace)
      | .ok tail => Except.ok (argv :: tail.1, outcome.failed || tail.2)

/-- run_cmake_tool.py lint_cmake_files: for each file, runs
cmake-lint --log-level level file; a non-zero exit, or a caught
subprocess.SubprocessError, sets the aggregate flag and the loop continues;
an uncaught OSError aborts the loop as in check_cmake_files_formatted. -/
def lint_cmake_files (run : List String → SpawnOutcome) (log_level : String) :
    List String → Except (List (List String)) (List (List String) × Bool)
  | [] => Except.ok ([], false)
  | file_path :: rest =>
    let argv := lintArgv log_level file_path
    match run argv with
    | .osError => Except.error [argv]
    | outcome =>
      match lint_cmake_files run log_level rest with
      | .error trace => Except.error (argv :: trace)
      | .ok tail => Except.ok (argv :: tail.1, outcome.failed || tail.2)

/-- The invocations a per-file loop attempted: the full trace when the loop
completed, or the attempts made up to and including the one whose uncaught
exception aborted it. -/
def loopInvocations
    (r : Except (List (List String)) (List (List String) × Bool)) :
    List (List String) :=
  match r with
  | .error trace => trace
  | .ok completed => completed.1

/-- The external world a tool-runner invocation observes: which paths are
directories, which executables resolve on the search path, the directory
tree under the start path, and the outcome of each subprocess invocation. -/
structure ToolWorld where
  isDir : String → Bool
  which : String → Bool
  tree : DirTree
  run : List String → SpawnOutcome

/-- The cmake-format version-query argument vector. -/
def formatVersionArgv : List String := ["cmake-format", "--version"]

/-- The cmake-lint version-query argument vector. -/
def lintVersionArgv : List String := ["cmake-lint", "--version"]

/-- run_cmake_tool.py run_cmake_format: validates the path is a directory
(INVALID_ARGUMENTS), that cmake-format resolves on the search path
(TOOL_NOT_FOUND), discovers CMakeLists files (NO_CMAKE_FILES_FOUND when
empty), queries the tool version (non-zero exit aborts with 1), then runs
the apply or check per-file loop and exits 1 on any handled per-file
failure, else SUCCESS. The ok result is the returned exit code and the list
of issued subprocess argument vectors; the error result models an uncaught
exception propagating out of the function (from the unguarded version query,
or an OSError escaping a per-file loop), carrying the invocations attempted
before the crash. -/
def run_cmake_format (w : ToolWorld) (path : String) (apply : Bool) :
    Except (List (List String)) (Int × List (List String)) :=
  if !w.isDir path then Except.ok (ExitCodes.INVALID_ARGUMENTS, [])
  else if !w.which "cmake-format" then Except.ok (ExitCodes.TOOL_NOT_FOUND, [])
  else
    let cmake_files := get_cmake_files path w.tree
    if cmake_files.isEmpty then Except.ok (ExitCodes.NO_CMAKE_FILES_FOUND, [])
    else
      match w.run formatVersionArgv with
      | .exited versionCode =>
        if versionCode != 0 then Except.ok (1, [formatVersionArgv])
        else if apply then
          match format_cmake_files w.run cmake_files with
          | .error trace => Except.error (formatVersionArgv :: trace)
          | .ok loop =>
            Except.ok ((if loop.2 then 1 else ExitCodes.SUCCESS),
              formatVersionArgv :: loop.1)
        else
          match check_cmake_files_formatted w.run cmake_files with
          | .error trace => Except.error (formatVersionArgv :: trace)
          | .ok loop =>
            Except.ok ((if loop.2 then 1 else ExitCodes.SUCCESS),
              formatVersionArgv :: loop.1)
      | _ => Except.error [formatVersionArgv]

/-- run_cmake_tool.py run_cmake_lint: validates the path is a directory
(INVALID_ARGUMENTS), that cmake-lint resolves on the search path
(TOOL_NOT_FOUND), discovers CMakeLists files (NO_CMAKE_FILES_FOUND when
empty), queries the tool version (non-zero exit aborts with 1), then runs
the per-file lint loop and exits 1 on any handled per-file failure, else
SUCCESS. Crash propagation is as in run_cmake_format. -/
def run_cmake_lint (w : ToolWorld) (path : String) (log_level : String) :
    Except (List (List String)) (Int × List (List String)) :=
  if !w.isDir path then Except.ok (ExitCodes.INVALID_ARGUMENTS, [])
  else if !w.which "cmake-lint" then Except.ok (ExitCodes.TOOL_NOT_FOUND, [])
  else
    let cmake_files := get_cmake_files path w.tree
    if cmake_files.isEmpty then Except.ok (ExitCodes.NO_CMAKE_FILES_FOUND, [])
    else
      match w.run lintVersionArgv with
      | .exited versionCode =>
        if versionCode != 0 then Except.ok (1, [lintVersionArgv])
        else
          match lint_cmake_files w.run log_level cmake_files with
          | .error trace => Except.error (lintVersionArgv :: trace)
          | .ok loop =>
            Except.ok ((if loop.2 then 1 else ExitCodes.SUCCESS),
              lintVersionArgv :: loop.1)
      | _ => Except.error [lintVersionArgv]

end RunCmakeTool

/-! ## github_action_entrypoint.py -/

namespace Entrypoint

/-- github_action_entrypoint.py script version string. -/
def scriptVersion : String := "0.1.0b1"

/-- The run cmake tool script name (RUN_CMAKE_TOOL_SCRIPT_NAME). -/
def RUN_CMAKE_TOOL_SCRIPT_NAME : String := "run_cmake_tool.py"

namespace ExitCodes

/-- github_action_entrypoint.py ExitCodes.TOOL_SCRIPT_NOT_FOUND. -/
def TOOL_SCRIPT_NOT_FOUND : Int := 101

/-- github_action_entrypoint.py ExitCodes.FAILED_TO_RUN_TOOL_SCRIPT. -/
def FAILED_TO_RUN_TOOL_SCRIPT : Int := 102

end ExitCodes

/-- github_action_entrypoint.py Command enum. -/
inductive Command where
  | FORMAT
  | LINT
deriving DecidableEq

/-- The string value of a Command enum member. -/
def Command.value : Command → String
  | .FORMAT => "format"
  | .LINT => "lint"

/-- github_action_entrypoint.py LogLevel enum. -/
inductive LogLevel where
  | DEBUG
  | INFO
  | WARNING
  | ERROR
deriving DecidableEq

/-- The string value of a LogLevel enum member. -/
def LogLevel.value : LogLevel → String
  | .DEBUG => "debug"
  | .INFO => "info"
  | .WARNING => "warning"
  | .ERROR => "error"

/-- github_action_entrypoint.py LoggingOptions: parsed logging options. -/
structure LoggingOptions where
  verbose : Bool
  quiet : Bool
deriving DecidableEq

/-- github_action_entrypoint.py LoggingOptions.create: builds a LoggingOptions
while handling argument collision, forcing verbose off when quiet is set. -/
def LoggingOptions.create (verbose quiet : Bool) : LoggingOptions :=
  { verbose := verbose && !quiet, quiet := quiet }

/-- github_action_entrypoint.py get_run_cmake_tool_script_path: joins the
directory from the RUN_CMAKE_TOOL_DIR environment variable (the current
directory when the variable is unset or empty) with the fixed script name.
The environment variable's value is the envVar parameter, none when unset. -/
def get_run_cmake_tool_script_path (envVar : Option String) : String :=
  let run_cmake_tool_dir := envVar.getD ""
  let run_cmake_tool_dir := if run_cmake_tool_dir = "" then "." else run_cmake_tool_dir
  joinPath run_cmake_tool_dir RUN_CMAKE_TOOL_SCRIPT_NAME

/-- The external world an entrypoint invocation observes: the environment
variable's value (none when unset), which paths are existing files, the
Python interpreter path, and the outcome of spawning a subprocess. -/
structure EntrypointWorld where
  envVar : Option String
  isFile : String → Bool
  pythonExe : String
  run : List String → SpawnOutcome

/-- github_action_entrypoint.py run_cmake_tool_script: returns
TOOL_SCRIPT_NOT_FOUND when the composed script path is not an existing file;
otherwise spawns the interpreter on the script with the converted arguments
appended. A completed child's exit code is returned verbatim; a
subprocess.SubprocessError is caught by the except clause and converted to
FAILED_TO_RUN_TOOL_SCRIPT; an OSError from a failed spawn matches no except
clause, so it propagates (the error result, carrying the attempted spawn
vector) instead of producing a return value. The ok result pairs the
returned code with the attempted spawn argument vectors. -/
def run_cmake_tool_script (w : EntrypointWorld) (command_and_arguments : List String) :
    Except (List (List String)) (Int × List (List String)) :=
  let run_cmake_tool_path := get_run_cmake_tool_script_path w.envVar
  if !w.isFile run_cmake_tool_path then
    Except.ok (ExitCodes.TOOL_SCRIPT_NOT_FOUND, [])
  else
    let subprocess_arguments := w.pythonExe :: run_cmake_tool_path :: command_and_arguments
    match w.run subprocess_arguments with
    | .exited returncode => Except.ok (returncode, [subprocess_arguments])
    | .subprocessError =>
      Except.ok (ExitCodes.FAILED_TO_RUN_TOOL_SCRIPT, [subprocess_arguments])
    | .osError => Except.error [subprocess_arguments]

/-- The four positional argument values after parsing, as held in the
argparse Namespace consumed by convert_args_to_run_cmake_tool. -/
structure ParsedArgs where
  command : Command
  path : String
  apply : Bool
  log_level : LogLevel
deriving DecidableEq

/-- github_action_entrypoint.py convert_args_to_run_cmake_tool: converts the
parsed arguments into the argument vector for the run cmake tool script,
printing verbose-gated progress lines. Returns the printed lines and the
argument vector. -/
def convert_args_to_run_cmake_tool (args : ParsedArgs) (logging_options : LoggingOptions) :
    List String × List String :=
  let header :=
    if logging_options.verbose then
      ["Running entrypoint script for " ++ RUN_CMAKE_TOOL_SCRIPT_NAME ++ " v." ++ scriptVersion]
    else []
  match args.command with
  | .FORMAT =>
    let applyText := if args.apply then "True" else "False"
    let printed := header ++
      (if logging_options.verbose then
        ["Running format on path: " ++ args.path ++ " with apply: " ++ applyText]
      else [])
    let format_subprocess_arguments :=
      ["format"] ++ (if args.apply then ["--apply"] else []) ++ [args.path]
    (printed, format_subprocess_arguments)
  | .LINT =>
    let printed := header ++
      (if logging_options.verbose then
        ["Running lint on path: " ++ args.path ++ " with log level: " ++ args.log_level.value]
      else [])
    let lint_subprocess_arguments := ["lint", "--log-level", args.log_level.value, args.path]
    (printed, lint_subprocess_arguments)

/-- github_action_entrypoint.py convert_bool_argument: converts a string
argument to a boolean using the tolerant lowercased lexicon, raising an
ArgumentTypeError (modelled as the error case) for any other literal. -/
def convert_bool_argument (arg : String) : Except String Bool :=
  if lower arg ∈ ["true", "yes", "1"] then Except.ok true
  else if lower arg ∈ ["false", "no", "0"] then Except.ok false
  else Except.error ("Invalid boolean argument: '" ++ arg ++
    "' is not a valid boolean. Use 'true' or 'false'.")

/-- Python Command(value) lookup by enum value, as performed by argparse for
the command positional declared with type=Command: an unrecognized value
raises (modelled as the error case), which argparse reports as a parse
error. -/
def parseCommand (s : String) : Except String Command :=
  if s = "format" then Except.ok Command.FORMAT
  else if s = "lint" then Except.ok Command.LINT
  else Except.error ("'" ++ s ++ "' is not a valid Command")

/-- Python LogLevel(value) lookup by enum value, as performed by argparse for
the log_level positional declared with type=LogLevel. -/
def parseLogLevel (s : String) : Except String LogLevel :=
  if s = "debug" then Except.ok LogLevel.DEBUG
  else if s = "info" then Except.ok LogLevel.INFO
  else if s = "warning" then Except.ok LogLevel.WARNING
  else if s = "error" then Except.ok LogLevel.ERROR
  else Except.error ("'" ++ s ++ "' is not a valid LogLevel")

/-- Models the argparse processing configured by
github_action_entrypoint.py create_argument_parser for the four positional
arguments: each positional value is converted by its type callable (Command,
str, convert_bool_argument, LogLevel) before any command dispatch, and any
conversion failure makes the parser exit with the standard parser status 2.
The choices checks are subsumed by the enum lookups, whose accepted values
coincide with the declared choices. -/
def parse_arguments (command path apply log_level : String) :
    Except Int ParsedArgs :=
  match parseCommand command with
  | .error _ => Except.error 2
  | .ok c =>
    match convert_bool_argument apply with
    | .error _ => Except.error 2
    | .ok a =>
      match parseLogLevel log_level with
      | .error _ => Except.error 2
      | .ok l => Except.ok { command := c, path := path, apply := a, log_level := l }

/-- github_action_entrypoint.py execute_tool_command: builds the logging
options, converts the arguments, and delegates to run_cmake_tool_script. -/
def execute_tool_command (w : EntrypointWorld) (args : ParsedArgs)
    (verbose quiet : Bool) :
    Except (List (List String)) (Int × List (List String)) :=
  let logging_options := LoggingOptions.create verbose quiet
  let command_and_arguments := (convert_args_to_run_cmake_tool args logging_options).2
  run_cmake_tool_script w command_and_arguments

/-- github_action_entrypoint.py main: parses the command line (argparse
behaviour modelled by parse_arguments) and on success dispatches to
execute_tool_command; a parse failure exits with the parser status and
attempts no spawn. The ok result is the controlled process exit code with
the attempted spawn vectors; the error result is an uncaught exception
propagating out of main. -/
def entrypoint_main (w : EntrypointWorld)
    (command path apply log_level : String) (verbose quiet : Bool) :
    Except (List (List String)) (Int × List (List String)) :=
  match parse_arguments command path apply log_level with
  | .error code => Except.ok (code, [])
  | .ok args => execute_tool_command w args verbose quiet

end Entrypoint

/-! ## Helper lemmas -/

open RunCmakeTool Entrypoint

/-- When no check invocation raises an uncaught OSError, the check loop
completes, issuing exactly one check-only invocation per file in list order
and aggregating the per-file failure indicators. -/
theorem check_cmake_files_formatted_complete (run : List String → SpawnOutcome) :
    ∀ files : List String,
      (∀ f ∈ files, run (checkArgv f) ≠ SpawnOutcome.osError) →
      check_cmake_files_formatted run files =
        Except.ok (files.map checkArgv,
          files.any fun f => (run (checkArgv f)).failed) := by
  intro files
  induction files with
  | nil => intro h; rfl
  | cons f rest ih =>
    intro h
    have hrest := ih fun g hg => h g (List.mem_cons_of_mem f hg)
    cases hout : run (checkArgv f) with
    | exited code =>
      simp [check_cmake_files_formatted, hout, hrest, SpawnOutcome.failed]
    | subprocessError =>
      simp [check_cmake_files_formatted, hout, hrest, SpawnOutcome.failed]
    | osError => exact absurd hout (h f (List.mem_cons_self f rest))

/-- When no apply invocation raises an uncaught OSError, the apply loop
completes, issuing exactly one in-place-write invocation per file in list
order and aggregating the per-file failure indicators. -/
theorem format_cmake_files_complete (run : List String → SpawnOutcome) :
    ∀ files : List String,
      (∀ f ∈ files, run (formatArgv f) ≠ SpawnOutcome.osError) →
      format_cmake_files run files =
        Except.ok (files.map formatArgv,
          files.any fun f => (run (formatArgv f)).failed) := by
  intro files
  induction files with
  | nil => intro h; rfl
  | cons f rest ih =>
    intro h
    have hrest := ih fun g hg => h g (List.mem_cons_of_mem f hg)
    cases hout : run (formatArgv f) with
    | exited code =>
      simp [format_cmake_files, hout, hrest, SpawnOutcome.failed]
    | subprocessError =>
      simp [format_cmake_files, hout, hrest, SpawnOutcome.failed]
    | osError => exact absurd hout (h f (List.mem_cons_self f rest))

/-- When no lint invocation raises an uncaught OSError, the lint loop
completes, issuing exactly one lint invocation per file in list order and
aggregating the per-file failure indicators. -/
theorem lint_cmake_files_complete (run : List String → SpawnOutcome) (log_level : String) :
    ∀ files : List String,
      (∀ f ∈ files, run (lintArgv log_level f) ≠ SpawnOutcome.osError) →
      lint_cmake_files run log_level files =
        Except.ok (files.map (lintArgv log_level),
          files.any fun f => (run (lintArgv log_level f)).failed) := by
  intro files
  induction files with
  | nil => intro h; rfl
  | cons f rest ih =>
    intro h
    have hrest := ih fun g hg => h g (List.mem_cons_of_mem f hg)
    cases hout : run (lintArgv log_level f) with
    | exited code =>
      simp [lint_cmake_files, hout, hrest, SpawnOutcome.failed]
    | subprocessError =>
      simp [lint_cmake_files, hout, hrest, SpawnOutcome.failed]
    | osError => exact absurd hout (h f (List.mem_cons_self f rest))

/-- One step of the check loop's attempted-invocation trace: the head
invocation is issued, and either it aborts the loop or the trace continues
with the tail's attempts. -/
theorem check_invocations_step (run : List String → SpawnOutcome)
    (f : String) (rest : List String) :
    loopInvocations (check_cmake_files_formatted run (f :: rest)) = [checkArgv f] ∨
    loopInvocations (check_cmake_files_formatted run (f :: rest)) =
      checkArgv f :: loopInvocations (check_cmake_files_formatted run rest) := by
  cases hout : run (checkArgv f) with
  | osError =>
    left
    simp [check_cmake_files_formatted, hout, loopInvocations]
  | exited code =>
    right
    cases hrec : check_cmake_files_formatted run rest <;>
      simp [check_cmake_files_formatted, hout, hrec, loopInvocations]
  | subprocessError =>
    right
    cases hrec : check_cmake_files_formatted run rest <;>
      simp [check_cmake_files_formatted, hout, hrec, loopInvocations]

/-- Every invocation the check loop attempts, whether or not the loop
completes, is the check-only invocation of one of its input files. -/
theorem check_invocations_shape (run : List String → SpawnOutcome) :
    ∀ files : List String,
      ∀ argv ∈ loopInvocations (check_cmake_files_formatted run files),
        ∃ f ∈ files, argv = checkArgv f := by
  intro files
  induction files with
  | nil =>
    intro argv h
    simp [check_cmake_files_formatted, loopInvocations] at h
  | cons f rest ih =>
    intro argv h
    rcases check_invocations_step run f rest with hstep | hstep <;> rw [hstep] at h
    · simp only [List.mem_singleton] at h
      exact ⟨f, List.mem_cons_self f rest, h⟩
    · rcases List.mem_cons.mp h with h | h
      · exact ⟨f, List.mem_cons_self f rest, h⟩
      · obtain ⟨g, hg, hgeq⟩ := ih argv h
        exact ⟨g, List.mem_cons_of_mem f hg, hgeq⟩

/-- A string of the accepted-true lexicon is not in the accepted-false
lexicon. -/
theorem true_lexicon_not_false_lexicon {s : String}
    (h : s ∈ ["true", "yes", "1"]) : s ∉ ["false", "no", "0"] := by
  simp only [List.mem_cons, List.not_mem_nil, or_false] at h
  rcases h with h | h | h <;> subst h <;> decide

/-! ## Claim theorems -/

/-- C1: the Normalizer's argument conversion emits exactly ["format", path]
for FORMAT with apply false, ["format", "--apply", path] for FORMAT with
apply true (the --apply flag immediately after "format"), and
["lint", "--log-level", level, path] for LINT; the log_level value never
appears in FORMAT output (the result is the same for every log level) and
the apply value never affects LINT output (the result is the same for every
apply value). -/
theorem c1_convert_args_exact_vectors :
    ∀ (path : String) (apply : Bool) (ll : LogLevel) (lo : LoggingOptions),
      (convert_args_to_run_cmake_tool
        { command := .FORMAT, path := path, apply := false, log_level := ll } lo).2 =
          ["format", path] ∧
      (convert_args_to_run_cmake_tool
        { command := .FORMAT, path := path, apply := true, log_level := ll } lo).2 =
          ["format", "--apply", path] ∧
      (convert_args_to_run_cmake_tool
        { command := .LINT, path := path, apply := apply, log_level := ll } lo).2 =
          ["lint", "--log-level", ll.value, path] := by
  intro path apply ll lo
  exact ⟨rfl, rfl, rfl⟩

/-- C3: the boolean-argument conversion returns true exactly when the
lowercased string is one of "true", "yes", "1", returns false exactly when
it is one of "false", "no", "0", and for every other string returns the
argument error rather than any boolean value. -/
theorem c3_convert_bool_argument_lexicon :
    ∀ arg : String,
      (convert_bool_argument arg = Except.ok true ↔
        lower arg ∈ ["true", "yes", "1"]) ∧
      (convert_bool_argument arg = Except.ok false ↔
        lower arg ∈ ["false", "no", "0"]) ∧
      (convert_bool_argument arg = Except.error ("Invalid boolean argument: '" ++ arg ++
          "' is not a valid boolean. Use 'true' or 'false'.") ↔
        (lower arg ∉ ["true", "yes", "1"] ∧ lower arg ∉ ["false", "no", "0"])) := by
  intro arg
  by_cases h1 : lower arg ∈ ["true", "yes", "1"]
  · have h2 := true_lexicon_not_false_lexicon h1
    simp [convert_bool_argument, h1, h2]
  · by_cases h2 : lower arg ∈ ["false", "no", "0"]
    · simp [convert_bool_argument, h1, h2]
    · simp [convert_bool_argument, h1, h2]

/-- C7: LoggingOptions.create never yields verbose and quiet both true, its
quiet field equals the requested quiet, its verbose field equals the
requested verbose whenever quiet is not requested, and requesting both
collapses to effective verbose false, quiet true. -/
theorem c7_logging_options_invariant :
    ∀ verbose quiet : Bool,
      ((LoggingOptions.create verbose quiet).verbose &&
        (LoggingOptions.create verbose quiet).quiet) = false ∧
      (LoggingOptions.create verbose quiet).quiet = quiet ∧
      (LoggingOptions.create verbose false).verbose = verbose ∧
      LoggingOptions.create true true = { verbose := false, quiet := true } := by
  decide

/-- C8: normalization is a pure function of the parsed arguments: the
argument vector component of convert_args_to_run_cmake_tool is identical
across any two logging-option values, so changing verbose or quiet can only
change the printed echo component, never the vector handed to the Tool
Runner. -/
theorem c8_normalization_independent_of_logging :
    ∀ (args : ParsedArgs) (lo lo' : LoggingOptions),
      (convert_args_to_run_cmake_tool args lo).2 =
        (convert_args_to_run_cmake_tool args lo').2 := by
  intro args lo lo'
  obtain ⟨c, p, a, l⟩ := args
  cases c <;> rfl

/-- Directory tree for the C2 failing input: a CMakeLists.txt directly under
proj, proj/a and proj/b, discovered in that order. -/
def c2BugTree : DirTree :=
  .mk ["CMakeLists.txt"]
    (.cons "a" (.mk ["CMakeLists.txt"] .nil)
      (.cons "b" (.mk ["CMakeLists.txt"] .nil) .nil))

/-- Subprocess behaviour for the C2 failing input: the spawn of the check
invocation for the second discovered file raises an OSError (the
cmake-format binary vanished after shutil.which resolved it); every other
invocation completes with exit code 0. -/
def c2BugRun : List String → SpawnOutcome := fun argv =>
  if argv = checkArgv "proj/a/CMakeLists.txt" then SpawnOutcome.osError
  else SpawnOutcome.exited 0

/-- World for the C2 failing input. -/
def c2BugWorld : ToolWorld where
  isDir := fun s => s == "proj"
  which := fun _ => true
  tree := c2BugTree
  run := c2BugRun

/-- Contrast behaviour for C2: the same second file raises
subprocess.SubprocessError — the class the except clause actually catches —
instead of OSError. -/
def c2HandledRun : List String → SpawnOutcome := fun argv =>
  if argv = checkArgv "proj/a/CMakeLists.txt" then SpawnOutcome.subprocessError
  else SpawnOutcome.exited 0

/-- World contrasting the C2 failing input. -/
def c2HandledWorld : ToolWorld where
  isDir := fun s => s == "proj"
  which := fun _ => true
  tree := c2BugTree
  run := c2HandledRun

/-- C2 (code bug): the claim states the accumulate-and-continue behaviour
that the source's own except handlers and messages promise, but those
handlers catch only subprocess.SubprocessError, which subprocess.run with
check False and no timeout never raises; a real spawn exception is an
OSError, which no clause catches. At the failing input — three discovered
files, the check spawn of the second raising OSError — the check loop
aborts: its attempted-invocation trace stops with the second file, the
third file is never attempted, and the whole run crashes instead of
returning exit code 1. The contrast world, answering the same invocation
with the caught SubprocessError class, exhibits exactly the claimed
behaviour: the failure is accumulated, all three files are attempted, and
the run returns exit code 1. -/
theorem c2_spawn_exception_aborts_run :
    check_cmake_files_formatted c2BugRun
      ["proj/CMakeLists.txt", "proj/a/CMakeLists.txt", "proj/b/CMakeLists.txt"] =
      Except.error [checkArgv "proj/CMakeLists.txt",
        checkArgv "proj/a/CMakeLists.txt"] ∧
    run_cmake_format c2BugWorld "proj" false =
      Except.error [formatVersionArgv,
        checkArgv "proj/CMakeLists.txt", checkArgv "proj/a/CMakeLists.txt"] ∧
    checkArgv "proj/b/CMakeLists.txt" ∉
      loopInvocations (check_cmake_files_formatted c2BugRun
        ["proj/CMakeLists.txt", "proj/a/CMakeLists.txt", "proj/b/CMakeLists.txt"]) ∧
    check_cmake_files_formatted c2HandledRun
      ["proj/CMakeLists.txt", "proj/a/CMakeLists.txt", "proj/b/CMakeLists.txt"] =
      Except.ok ([checkArgv "proj/CMakeLists.txt", checkArgv "proj/a/CMakeLists.txt",
        checkArgv "proj/b/CMakeLists.txt"], true) ∧
    run_cmake_format c2HandledWorld "proj" false =
      Except.ok (1, [formatVersionArgv, checkArgv "proj/CMakeLists.txt",
        checkArgv "proj/a/CMakeLists.txt", checkArgv "proj/b/CMakeLists.txt"]) := by
  decide

/-- C4: both Tool Runner modes run the environment checks in a fixed order,
each failure short-circuiting with no subprocess invocations: a non-directory
root path yields INVALID_ARGUMENTS (12); an unresolvable tool yields
TOOL_NOT_FOUND (11) with an empty invocation trace (so no version query) for
every tree and every subprocess behaviour (so discovery is irrelevant); an
empty discovery yields NO_CMAKE_FILES_FOUND (13) with zero invocations; and
a non-zero version query aborts with exit 1 before any per-file dispatch,
the trace holding only the version query. -/
theorem c4_environment_check_order :
    ∀ (w : ToolWorld) (path log_level : String) (apply : Bool),
      (ExitCodes.INVALID_ARGUMENTS = 12 ∧ ExitCodes.TOOL_NOT_FOUND = 11 ∧
        ExitCodes.NO_CMAKE_FILES_FOUND = 13) ∧
      (w.isDir path = false →
        run_cmake_format w path apply = Except.ok (ExitCodes.INVALID_ARGUMENTS, []) ∧
        run_cmake_lint w path log_level = Except.ok (ExitCodes.INVALID_ARGUMENTS, [])) ∧
      (w.isDir path = true → w.which "cmake-format" = false →
        run_cmake_format w path apply = Except.ok (ExitCodes.TOOL_NOT_FOUND, [])) ∧
      (w.isDir path = true → w.which "cmake-lint" = false →
        run_cmake_lint w path log_level = Except.ok (ExitCodes.TOOL_NOT_FOUND, [])) ∧
      (w.isDir path = true → w.which "cmake-format" = true →
        get_cmake_files path w.tree = [] →
        run_cmake_format w path apply = Except.ok (ExitCodes.NO_CMAKE_FILES_FOUND, [])) ∧
      (w.isDir path = true → w.which "cmake-lint" = true →
        get_cmake_files path w.tree = [] →
        run_cmake_lint w path log_level = Except.ok (ExitCodes.NO_CMAKE_FILES_FOUND, [])) ∧
      (∀ versionCode : Int, versionCode ≠ 0 →
        w.isDir path = true → w.which "cmake-format" = true →
        get_cmake_files path w.tree ≠ [] →
        w.run formatVersionArgv = .exited versionCode →
        run_cmake_format w path apply = Except.ok (1, [formatVersionArgv])) ∧
      (∀ versionCode : Int, versionCode ≠ 0 →
        w.isDir path = true → w.which "cmake-lint" = true →
        get_cmake_files path w.tree ≠ [] →
        w.run lintVersionArgv = .exited versionCode →
        run_cmake_lint w path log_level = Except.ok (1, [lintVersionArgv])) := by
  intro w path log_level apply
  refine ⟨⟨rfl, rfl, rfl⟩, ?_, ?_, ?_, ?_, ?_, ?_, ?_⟩
  · intro hdir
    constructor <;> simp [run_cmake_format, run_cmake_lint, hdir]
  · intro hdir hwhich
    simp [run_cmake_format, hdir, hwhich]
  · intro hdir hwhich
    simp [run_cmake_lint, hdir, hwhich]
  · intro hdir hwhich hfiles
    simp [run_cmake_format, hdir, hwhich, hfiles]
  · intro hdir hwhich hfiles
    simp [run_cmake_lint, hdir, hwhich, hfiles]
  · intro versionCode hvc hdir hwhich hfiles hver
    have hne : (get_cmake_files path w.tree).isEmpty = false := by
      simpa [List.isEmpty_iff] using hfiles
    simp [run_cmake_format, hdir, hwhich, hne, hver, hvc]
  · intro versionCode hvc hdir hwhich hfiles hver
    have hne : (get_cmake_files path w.tree).isEmpty = false := by
      simpa [List.isEmpty_iff] using hfiles
    simp [run_cmake_lint, hdir, hwhich, hne, hver, hvc]

/-- Concrete world hitting the invalid-directory branch. -/
def c4WorldNoDir : ToolWorld where
  isDir := fun _ => false
  which := fun _ => true
  tree := .mk ["CMakeLists.txt"] .nil
  run := fun _ => SpawnOutcome.exited 0

/-- Concrete world hitting the tool-not-found branch. -/
def c4WorldNoTool : ToolWorld where
  isDir := fun _ => true
  which := fun _ => false
  tree := .mk ["CMakeLists.txt"] .nil
  run := fun _ => SpawnOutcome.exited 0

/-- Concrete world hitting the no-files branch. -/
def c4WorldNoFiles : ToolWorld where
  isDir := fun _ => true
  which := fun _ => true
  tree := .mk ["other.txt"] .nil
  run := fun _ => SpawnOutcome.exited 0

/-- Concrete world hitting the failing-version-query branch. -/
def c4WorldBadVersion : ToolWorld where
  isDir := fun _ => true
  which := fun _ => true
  tree := .mk ["CMakeLists.txt"] .nil
  run := fun _ => SpawnOutcome.exited 3

/-- Witness for C4: each environment-check failure observed at a concrete
world, with the stated exit code and invocation trace. -/
theorem c4_witness :
    run_cmake_format c4WorldNoDir "proj" false = Except.ok (12, []) ∧
    run_cmake_format c4WorldNoTool "proj" false = Except.ok (11, []) ∧
    run_cmake_lint c4WorldNoTool "proj" "warning" = Except.ok (11, []) ∧
    run_cmake_format c4WorldNoFiles "proj" true = Except.ok (13, []) ∧
    run_cmake_lint c4WorldNoFiles "proj" "warning" = Except.ok (13, []) ∧
    run_cmake_format c4WorldBadVersion "proj" false = Except.ok (1, [formatVersionArgv]) ∧
    run_cmake_lint c4WorldBadVersion "proj" "warning" = Except.ok (1, [lintVersionArgv]) := by
  refine ⟨((c4_environment_check_order c4WorldNoDir "proj" "warning" false).2.1 rfl).1,
    (c4_environment_check_order c4WorldNoTool "proj" "warning" false).2.2.1 rfl rfl,
    (c4_environment_check_order c4WorldNoTool "proj" "warning" false).2.2.2.1 rfl rfl,
    (c4_environment_check_order c4WorldNoFiles "proj" "warning" true).2.2.2.2.1 rfl rfl (by decide),
    (c4_environment_check_order c4WorldNoFiles "proj" "warning" true).2.2.2.2.2.1 rfl rfl (by decide),
    (c4_environment_check_order c4WorldBadVersion "proj" "warning" false).2.2.2.2.2.2.1
      3 (by decide) rfl rfl (by decide) rfl,
    (c4_environment_check_order c4WorldBadVersion "proj" "warning" false).2.2.2.2.2.2.2
      3 (by decide) rfl rfl (by decide) rfl⟩

/-- Joining a nonempty file name onto a directory never yields the directory
itself. -/
theorem joinPath_ne_left (d b : String) (hb : b ≠ "") : joinPath d b ≠ d := by
  have hbl : 0 < b.data.length := by
    rcases b with ⟨bdata⟩
    cases bdata with
    | nil => exact absurd rfl hb
    | cons c cs => simp
  unfold joinPath
  split_ifs with h1 h2
  · intro h
    exact hb (h.trans h1)
  · intro h
    have hl := congrArg (fun s => s.data.length) h
    simp only [String.data_append, List.length_append] at hl
    omega
  · intro h
    have hl := congrArg (fun s => s.data.length) h
    simp only [String.data_append, List.length_append] at hl
    omega

/-- The discovery filterMap keeps one entry per matched directory. -/
theorem discovery_length_countP (l : List (String × List String)) :
    (l.filterMap fun entry =>
      if CMAKE_LIST_FILE_NAME ∈ entry.2 then
        some (joinPath entry.1 CMAKE_LIST_FILE_NAME)
      else none).length =
      l.countP fun entry => decide (CMAKE_LIST_FILE_NAME ∈ entry.2) := by
  induction l with
  | nil => rfl
  | cons e rest ih =>
    by_cases hc : CMAKE_LIST_FILE_NAME ∈ e.2 <;>
      simp [List.filterMap_cons, List.countP_cons, hc, ih]

/-- Example tree for C6: marker files directly under a and a/b, none at the
root. -/
def c6ExampleTree : DirTree :=
  .mk ["README.md"]
    (.cons "a" (.mk ["CMakeLists.txt"]
      (.cons "b" (.mk ["CMakeLists.txt"] .nil) .nil)) .nil)

/-- C6: discovery returns exactly the joined paths directory/CMakeLists.txt
of the walked directories that directly contain the marker name — one result
per matched directory, each distinct from the directory path itself — and on
the example trees it yields exactly the two expected paths, respectively the
empty list. -/
theorem c6_discovery_characterization :
    (∀ (s : String) (t : DirTree) (p : String),
      p ∈ get_cmake_files s t ↔
        ∃ entry, entry ∈ walk s t ∧ CMAKE_LIST_FILE_NAME ∈ entry.2 ∧
          p = joinPath entry.1 CMAKE_LIST_FILE_NAME ∧ p ≠ entry.1) ∧
    (∀ (s : String) (t : DirTree),
      (get_cmake_files s t).length =
        (walk s t).countP fun entry => decide (CMAKE_LIST_FILE_NAME ∈ entry.2)) ∧
    get_cmake_files "root" c6ExampleTree =
      ["root/a/CMakeLists.txt", "root/a/b/CMakeLists.txt"] ∧
    get_cmake_files "root" (DirTree.mk ["other.txt"] DirForest.nil) = [] := by
  refine ⟨?_, ?_, by decide, by decide⟩
  · intro s t p
    constructor
    · intro hp
      rw [get_cmake_files, List.mem_filterMap] at hp
      obtain ⟨entry, hmem, hf⟩ := hp
      by_cases hc : CMAKE_LIST_FILE_NAME ∈ entry.2
      · rw [if_pos hc] at hf
        have hp' := (Option.some.inj hf).symm
        refine ⟨entry, hmem, hc, hp', ?_⟩
        rw [hp']
        exact joinPath_ne_left entry.1 CMAKE_LIST_FILE_NAME (by decide)
      · rw [if_neg hc] at hf
        exact absurd hf (by simp)
    · rintro ⟨entry, hmem, hc, hp, -⟩
      rw [get_cmake_files, List.mem_filterMap]
      exact ⟨entry, hmem, by rw [if_pos hc, hp]⟩
  · intro s t
    exact discovery_length_countP (walk s t)

/-- Witness for C6: the membership characterization instantiated at the
example tree, exhibiting the matched directory for root/a/CMakeLists.txt. -/
theorem c6_witness :
    "root/a/CMakeLists.txt" ∈ get_cmake_files "root" c6ExampleTree ∧
    (get_cmake_files "root" c6ExampleTree).length =
      (walk "root" c6ExampleTree).countP
        (fun entry => decide (CMAKE_LIST_FILE_NAME ∈ entry.2)) := by
  refine ⟨(c6_discovery_characterization.1 "root" c6ExampleTree
    "root/a/CMakeLists.txt").mpr ⟨("root/a", ["CMakeLists.txt"]), ?_, ?_, ?_, ?_⟩,
    c6_discovery_characterization.2.1 "root" c6ExampleTree⟩
  · decide
  · decide
  · decide
  · decide

/-- Worlds for the C5 clauses: the composed script path is missing. -/
def c5WorldNoScript : EntrypointWorld where
  envVar := none
  isFile := fun _ => false
  pythonExe := "python3"
  run := fun _ => SpawnOutcome.exited 0

/-- World for the C5 clauses: the spawn raises the caught
subprocess.SubprocessError. -/
def c5WorldSubprocessErr : EntrypointWorld where
  envVar := some "tools"
  isFile := fun s => s == "tools/run_cmake_tool.py"
  pythonExe := "python3"
  run := fun _ => SpawnOutcome.subprocessError

/-- World for the C5 clauses: the child completes with exit code 7. -/
def c5WorldDelegate : EntrypointWorld where
  envVar := some ""
  isFile := fun s => s == "./run_cmake_tool.py"
  pythonExe := "python3"
  run := fun _ => SpawnOutcome.exited 7

/-- World for the C5 failing input: the script exists but the spawn raises
OSError, the class that actually signals a failure to launch. -/
def c5BugWorld : EntrypointWorld where
  envVar := some "tools"
  isFile := fun s => s == "tools/run_cmake_tool.py"
  pythonExe := "python3"
  run := fun _ => SpawnOutcome.osError

/-- C5 (code bug): the claim promises 102 whenever the child process cannot
be spawned, matching the source's FAILED_TO_RUN_TOOL_SCRIPT name and its
handler's message, but the handler catches only subprocess.SubprocessError,
which subprocess.run with check False and no timeout never raises; a real
failure to launch raises OSError, which propagates uncaught, so the
entrypoint crashes with a traceback instead of returning 102. At the failing
input the dispatch yields the propagated-exception result, not the ok result
102. The clauses of the claim the code does satisfy are included: the
composed path joins the environment directory (with the "." fallback) to the
fixed filename, a missing script returns 101 with no spawn attempt, the
caught SubprocessError class returns 102, and a completed child's exit code
is returned verbatim. -/
theorem c5_spawn_failure_crashes_not_102 :
    run_cmake_tool_script c5BugWorld ["format", "src"] =
      Except.error [["python3", "tools/run_cmake_tool.py", "format", "src"]] ∧
    (run_cmake_tool_script c5BugWorld ["format", "src"] ≠
      Except.ok (102, [["python3", "tools/run_cmake_tool.py", "format", "src"]])) ∧
    get_run_cmake_tool_script_path none = "./run_cmake_tool.py" ∧
    get_run_cmake_tool_script_path (some "") = "./run_cmake_tool.py" ∧
    get_run_cmake_tool_script_path (some "tools") = "tools/run_cmake_tool.py" ∧
    run_cmake_tool_script c5WorldNoScript ["format", "src"] =
      Except.ok (101, []) ∧
    run_cmake_tool_script c5WorldSubprocessErr ["format", "src"] =
      Except.ok (102, [["python3", "tools/run_cmake_tool.py", "format", "src"]]) ∧
    run_cmake_tool_script c5WorldDelegate ["format", "src"] =
      Except.ok (7, [["python3", "./run_cmake_tool.py", "format", "src"]]) := by
  decide

/-- C9: every invocation the check loop (FORMAT mode with apply false)
attempts — whether the loop completes or is aborted by an uncaught spawn
exception — is the check-only form ["cmake-format", "--check", file]: it
contains the --check flag and is never the in-place-write invocation form
carrying the -o output option, so the loop requests no file modification;
and when every spawn is handled the loop issues exactly one such invocation
per discovered file. -/
theorem c9_check_mode_never_writes :
    ∀ (run : List String → SpawnOutcome) (files : List String),
      ((∀ f ∈ files, run (checkArgv f) ≠ SpawnOutcome.osError) →
        check_cmake_files_formatted run files =
          Except.ok (files.map checkArgv,
            files.any fun f => (run (checkArgv f)).failed)) ∧
      (∀ argv ∈ loopInvocations (check_cmake_files_formatted run files),
        (∃ f ∈ files, argv = checkArgv f) ∧
        "--check" ∈ argv ∧
        ∀ g : String, argv ≠ formatArgv g) := by
  intro run files
  refine ⟨check_cmake_files_formatted_complete run files, ?_⟩
  intro argv hmem
  obtain ⟨f, hf, rfl⟩ := check_invocations_shape run files argv hmem
  refine ⟨⟨f, hf, rfl⟩, by simp [checkArgv], ?_⟩
  intro g h
  simp [checkArgv, formatArgv] at h

/-- Witness for C9: the check-only invocation shape observed on a concrete
file list whose single spawn completes. -/
theorem c9_witness :
    check_cmake_files_formatted (fun _ => SpawnOutcome.exited 0)
      ["proj/CMakeLists.txt"] =
        Except.ok ([["cmake-format", "--check", "proj/CMakeLists.txt"]], false) ∧
    "--check" ∈ checkArgv "proj/CMakeLists.txt" ∧
    checkArgv "proj/CMakeLists.txt" ≠ formatArgv "proj/CMakeLists.txt" := by
  have h := c9_check_mode_never_writes (fun _ => SpawnOutcome.exited 0)
    ["proj/CMakeLists.txt"]
  have h1 := h.1 (by decide)
  have h2 := h.2 (checkArgv "proj/CMakeLists.txt") (by decide)
  exact ⟨by simpa using h1, h2.2.1, h2.2.2 "proj/CMakeLists.txt"⟩

/-- C10: parsing validates all four positionals regardless of the requested
command: a lint invocation whose apply literal is outside the boolean
lexicon, and a format invocation whose log_level is not one of the four
severities, both make the entrypoint exit with the standard parser status 2
before any conversion, with no spawn attempted, for every world and every
logging flag combination. -/
theorem c10_all_positionals_validated :
    ∀ (w : EntrypointWorld) (path applyLiteral levelLiteral : String)
      (verbose quiet : Bool),
      ((∃ msg, convert_bool_argument applyLiteral = Except.error msg) →
        entrypoint_main w "lint" path applyLiteral levelLiteral verbose quiet =
          Except.ok (2, [])) ∧
      ((∃ msg, parseLogLevel levelLiteral = Except.error msg) →
        entrypoint_main w "format" path applyLiteral levelLiteral verbose quiet =
          Except.ok (2, [])) := by
  intro w path applyLiteral levelLiteral verbose quiet
  constructor
  · rintro ⟨msg, hmsg⟩
    simp [entrypoint_main, parse_arguments, parseCommand, hmsg]
  · rintro ⟨msg, hmsg⟩
    rcases ha : convert_bool_argument applyLiteral with msga | ba
    · simp [entrypoint_main, parse_arguments, parseCommand, ha]
    · simp [entrypoint_main, parse_arguments, parseCommand, ha, hmsg]

/-- Witness for C10: lint with apply literal "maybe" and format with
log level "loud" both exit 2 with no spawn, in a world whose script exists
and whose child would exit 0. -/
theorem c10_witness :
    entrypoint_main c5WorldDelegate "lint" "src" "maybe" "error" false false =
      Except.ok (2, []) ∧
    entrypoint_main c5WorldDelegate "format" "src" "true" "loud" false false =
      Except.ok (2, []) := by
  refine ⟨(c10_all_positionals_validated c5WorldDelegate "src" "maybe" "error"
      false false).1
      ⟨"Invalid boolean argument: 'maybe' is not a valid boolean. Use 'true' or 'false'.",
        by rfl⟩,
    (c10_all_positionals_validated c5WorldDelegate "src" "true" "loud"
      false false).2 ⟨"'loud' is not a valid LogLevel", by rfl⟩⟩

end RunCmakeFormat
